import Mathlib

/-!
Verification of the virtual-fitting fit-scoring engine of the Kimelia API.

The development shallowly embeds the JavaScript scoring code into Lean:

* `Engine` embeds the catalog-product scoring path
  (`calculateFittingResult`, `calculateFitScore`, `getFitDescription`
  and the inline size-recommendation block of `src/unnamed/part_005`).
* `FitSvc` embeds `src/services/calculateFittingResult.service.js`
  (the guarded catalog entry point with its default fitting result).
* `CustomSvc` embeds the numeric score of
  `src/services/calculateFittingResultForCustomDesign.service.js`.

JavaScript numbers are modelled as rationals (`ℚ`), absent object fields
as `none`, and JavaScript truthiness of a numeric field (`undefined` and
`0` are falsy) by `isFalsy`.  `Math.round` rounds half toward positive
infinity, which is `⌊x + 1/2⌋`.
-/

/-- JavaScript `Math.round`: round half toward positive infinity. -/
def jsRound (x : ℚ) : ℤ := ⌊x + 1/2⌋

/-- A JavaScript measurement object: each tracked field either absent
(`none`) or a number.  The user side uses `height`, the garment side
uses `length`; one record type models both shapes. -/
structure Meas where
  shoulders : Option ℚ
  bust : Option ℚ
  waist : Option ℚ
  hips : Option ℚ
  height : Option ℚ
  length : Option ℚ
deriving DecidableEq

/-- The empty JavaScript object `{}` seen as a measurement set. -/
def emptyMeas : Meas := ⟨none, none, none, none, none, none⟩

/-- JavaScript truthiness test on a numeric field: `undefined` and `0`
are falsy (`!x` is true exactly for these among our values). -/
def isFalsy : Option ℚ → Bool
  | none => true
  | some x => x == 0

/-- Boolean check that an optional measurement, when present, is a
positive number.  The spec's data model declares every measurement "a
positive real number in centimeters"; this is the validity assumption
used for claims quantified over valid inputs. -/
def optPos : Option ℚ → Bool
  | none => true
  | some v => decide (0 < v)

/-- All present fields of a measurement set are positive. -/
def Meas.valid (m : Meas) : Bool :=
  optPos m.shoulders && optPos m.bust && optPos m.waist &&
    optPos m.hips && optPos m.height && optPos m.length

namespace Engine

/-- One entry of `product.sizes`: a size token with optional
per-size measurement overrides. -/
structure SizeEntry where
  size : String
  measurements : Option Meas
deriving DecidableEq

/-- The product record as read by `calculateFittingResult`:
`product.measurements` (may be absent, defaulted to `{}`) and the
`product.sizes` array. -/
structure Product where
  measurements : Option Meas
  sizes : List SizeEntry
deriving DecidableEq

/-- The `temporaryBodyModel` with its `modelData` measurement set. -/
structure TemporaryBodyModel where
  modelData : Meas
deriving DecidableEq

/-- The five per-region fit scores (`null` = no data). -/
structure FitScores where
  shoulders : Option ℤ
  bust : Option ℤ
  waist : Option ℤ
  hips : Option ℤ
  length : Option ℤ
deriving DecidableEq

/-- The `fitDetails` record of descriptor strings. -/
structure FitDetails where
  shoulders : String
  bust : String
  waist : String
  hips : String
  length : String
deriving DecidableEq

/-- The result record returned by `calculateFittingResult`. -/
structure FittingResult where
  fit : String
  sizeRecommendation : String
  fitScore : ℤ
  fitDetails : FitDetails
deriving DecidableEq

/-- Source `calculateFitScore(userMeasurement, productMeasurement)` from
`src/unnamed/part_005`: `null` when either side is falsy, otherwise
`Math.round(Math.max(50, 100 - (|u - p| / p) * 250))`. -/
def calculateFitScore (userMeasurement productMeasurement : Option ℚ) : Option ℤ :=
  if isFalsy userMeasurement || isFalsy productMeasurement then none
  else
    let difference :=
      |userMeasurement.getD 0 - productMeasurement.getD 0| / productMeasurement.getD 0
    let score := max 50 (100 - difference * 250)
    some (jsRound score)

/-- Per-field JavaScript object spread: the override's field wins when
present (`{...base, ...ov}`). -/
def mergeMeas (base ov : Meas) : Meas :=
  ⟨ov.shoulders.or base.shoulders, ov.bust.or base.bust, ov.waist.or base.waist,
   ov.hips.or base.hips, ov.height.or base.height, ov.length.or base.length⟩

/-- The effective garment measurements: `product.measurements || {}`
spread-merged with the selected size's overrides (the source looks the
entry up by `findIndex` on the size token and indexes the array, which
is the first entry whose `size` matches). -/
def finalProductMeasurements (product : Product) (size : String) : Meas :=
  let productMeasurements := product.measurements.getD emptyMeas
  let sizeMeasurements :=
    match product.sizes.find? (fun s => s.size == size) with
    | some entry => entry.measurements.getD emptyMeas
    | none => emptyMeas
  mergeMeas productMeasurements sizeMeasurements

/-- The five per-region scores; the `length` region pairs the user's
`height` with the garment's `length`. -/
def fitScores (userMeasurements garment : Meas) : FitScores :=
  ⟨calculateFitScore userMeasurements.shoulders garment.shoulders,
   calculateFitScore userMeasurements.bust garment.bust,
   calculateFitScore userMeasurements.waist garment.waist,
   calculateFitScore userMeasurements.hips garment.hips,
   calculateFitScore userMeasurements.height garment.length⟩

/-- The (score, weight) pairs the accumulation loop iterates over, in
source order, with the weights `{shoulders: 0.15, bust: 0.25,
waist: 0.25, hips: 0.25, length: 0.1}`. -/
def weightedEntries (fs : FitScores) : List (Option ℤ × ℚ) :=
  [(fs.shoulders, 15/100), (fs.bust, 25/100), (fs.waist, 25/100),
   (fs.hips, 25/100), (fs.length, 10/100)]

/-- One step of the loop: a non-`null` score adds `score * weight` to
`overallScore` and `weight` to `totalWeight`. -/
def accumulate (acc : ℚ × ℚ) (entry : Option ℤ × ℚ) : ℚ × ℚ :=
  match entry.1 with
  | some score => (acc.1 + (score : ℚ) * entry.2, acc.2 + entry.2)
  | none => acc

/-- The `finalScore` value: the rounded weighted average over defined regions, or
`85` when `totalWeight` stayed `0`. -/
def finalScore (fs : FitScores) : ℤ :=
  let totals := (weightedEntries fs).foldl accumulate (0, 0)
  if 0 < totals.2 then jsRound (totals.1 / totals.2) else 85

/-- The overall fit-category ladder of the catalog path. -/
def fitCategory (finalScore : ℤ) : String :=
  if finalScore < 70 then "poor"
  else if finalScore < 80 then "tight"
  else if finalScore < 90 then "good"
  else "perfect"

/-- The ordered size enumeration `["XS","S","M","L","XL","XXL"]`. -/
def sizeOptions : List String := ["XS", "S", "M", "L", "XL", "XXL"]

/-- Source `sizeOptions.indexOf(size)`: index in the literal array, `-1` when
the token is not in it. -/
def indexOfSize (size : String) : ℤ :=
  if "XS" == size then 0
  else if "S" == size then 1
  else if "M" == size then 2
  else if "L" == size then 3
  else if "XL" == size then 4
  else if "XXL" == size then 5
  else -1

/-- The inline size-recommendation block of `calculateFittingResult`:
below 75 step to the next larger entry when not already at the last
index, above 95 step to the next smaller entry when the index is
positive, otherwise keep the selected size.  (The array lookup is
always in range in the branch that performs it; the `getD` default is
never reached.) -/
def sizeRecommendationFor (finalScore : ℤ) (size : String) : String :=
  if finalScore < 75 then
    if indexOfSize size < (sizeOptions.length : ℤ) - 1 then
      sizeOptions.getD (indexOfSize size + 1).toNat size
    else size
  else if finalScore > 95 then
    if indexOfSize size > 0 then
      sizeOptions.getD (indexOfSize size - 1).toNat size
    else size
  else size

/-- Source `getFitDescription(score)` from `src/unnamed/part_005`. -/
def getFitDescription : Option ℤ → String
  | none => "No data available"
  | some score =>
    if score ≥ 95 then "Perfect fit"
    else if score ≥ 85 then "Good fit"
    else if score ≥ 75 then "Acceptable fit"
    else if score ≥ 65 then "Slightly tight"
    else if score ≥ 55 then "Tight fit"
    else "Poor fit"

/-- Source `calculateFittingResult(temporaryBodyModel, product, size)` from
`src/unnamed/part_005`, assembled from the pieces above exactly as in
the source. -/
def calculateFittingResult (temporaryBodyModel : TemporaryBodyModel)
    (product : Product) (size : String) : FittingResult :=
  let userMeasurements := temporaryBodyModel.modelData
  let garment := finalProductMeasurements product size
  let fs := fitScores userMeasurements garment
  let score := finalScore fs
  ⟨fitCategory score,
   sizeRecommendationFor score size,
   score,
   ⟨getFitDescription fs.shoulders, getFitDescription fs.bust,
    getFitDescription fs.waist, getFitDescription fs.hips,
    getFitDescription fs.length⟩⟩

/-- At least one of the five regions obtained a defined score. -/
def anyRegionDefined (fs : FitScores) : Bool :=
  fs.shoulders.isSome || fs.bust.isSome || fs.waist.isSome ||
    fs.hips.isSome || fs.length.isSome

/-- Validity of a product record: base measurements and every size
entry's overrides contain only positive values. -/
def Product.valid (p : Product) : Bool :=
  (p.measurements.getD emptyMeas).valid &&
    p.sizes.all (fun e => (e.measurements.getD emptyMeas).valid)

/-- The next larger token of the ordered enumeration (identity at the
top), as the spec words it. -/
def nextLargerSize : String → String
  | "XS" => "S"
  | "S" => "M"
  | "M" => "L"
  | "L" => "XL"
  | "XL" => "XXL"
  | s => s

/-- The next smaller token of the ordered enumeration (identity at the
bottom), as the spec words it. -/
def nextSmallerSize : String → String
  | "XXL" => "XL"
  | "XL" => "L"
  | "L" => "M"
  | "M" => "S"
  | "S" => "XS"
  | s => s

/-- Spec-side summand: `regionScore * weight` for a defined region,
`0` for an undefined one. -/
def contribution (x : Option ℤ) (w : ℚ) : ℚ :=
  match x with
  | some s => (s : ℚ) * w
  | none => 0

/-- Spec-side summand: the weight of a defined region, `0` for an
undefined one. -/
def usedWeight (x : Option ℤ) (w : ℚ) : ℚ :=
  match x with
  | some _ => w
  | none => 0

end Engine

namespace FitSvc

/-- The `fitDetails` record of the service path. -/
structure FitDetails where
  shoulders : String
  bust : String
  waist : String
  hips : String
  length : String
deriving DecidableEq

/-- The result record of `calculateFittingResult.service.js` (its
`fitScore` is not rounded, hence a rational). -/
structure FittingResult where
  fit : String
  sizeRecommendation : String
  fitScore : ℚ
  fitDetails : FitDetails
deriving DecidableEq

/-- The user's virtual fitting profile: `bodyMeasurements` may itself
be absent. -/
structure VirtualFitting where
  bodyMeasurements : Option Meas
deriving DecidableEq

/-- The product record as used by the service (only `measurements` is
read). -/
structure Product where
  measurements : Option Meas
deriving DecidableEq

/-- Source `getDefaultFittingResult(size)`: the documented default result;
`size || "M"` falls back to `"M"` for an absent or empty token. -/
def getDefaultFittingResult (size : Option String) : FittingResult :=
  ⟨"Standard",
   match size with
   | some s => if s = "" then "M" else s
   | none => "M",
   75,
   ⟨"Standard fit", "Standard fit", "Standard fit", "Standard fit", "Standard fit"⟩⟩

/-- The service's `calculateFitScore`.  When both measurement objects
are present it subtracts the bust and waist differences (absent fields
default to `0` via `|| 0`) and then calls `size.toUpperCase()`, which
throws on an absent size — modelled by `Except`.  The result is clamped
by `Math.max(0, Math.min(100, score))`. -/
def calculateFitScore (userMeasurements productMeasurements : Option Meas)
    (size : Option String) : Except Unit ℚ :=
  let score : ℚ := 80
  match userMeasurements, productMeasurements with
  | some u, some p =>
    let bustDiff := |u.bust.getD 0 - p.bust.getD 0|
    let waistDiff := |u.waist.getD 0 - p.waist.getD 0|
    let score := score - bustDiff * (1/2) - waistDiff * (7/10)
    match size with
    | none => .error ()
    | some s =>
      let su := s.toUpper
      let score := if su == "S" then score - 5
                   else if su == "L" then score + 5
                   else score
      .ok (max 0 (min 100 score))
  | _, _ => .ok (max 0 (min 100 score))

/-- The service's `analyzeFit`: all regions `"Standard fit"` except a
shoulder check when both measurement objects are present (the `size`
argument is passed by the caller but unused). -/
def analyzeFit (userMeasurements productMeasurements : Option Meas)
    (size : Option String) : FitDetails :=
  match userMeasurements, productMeasurements with
  | some u, some p =>
    let sh := if u.shoulders.getD 0 > p.shoulders.getD 0 + 2 then "Tight across shoulders"
              else if u.shoulders.getD 0 < p.shoulders.getD 0 - 2 then "Loose on shoulders"
              else "Standard fit"
    ⟨sh, "Standard fit", "Standard fit", "Standard fit", "Standard fit"⟩
  | _, _ => ⟨"Standard fit", "Standard fit", "Standard fit", "Standard fit", "Standard fit"⟩

/-- The service's `determineFit` threshold ladder. -/
def determineFit (fitScore : ℚ) : String :=
  if fitScore < 40 then "Tight"
  else if fitScore > 80 then "Loose"
  else "Standard"

/-- The service's `recommendSize`. -/
def recommendSize (userMeasurements productMeasurements : Option Meas)
    (size : Option String) : String :=
  match size with
  | none => "M"
  | some s =>
    if s = "" then "M"
    else
      match userMeasurements, productMeasurements with
      | some u, some p =>
        if u.waist.getD 0 > p.waist.getD 0 + 5 then "L"
        else if u.bust.getD 0 < p.bust.getD 0 - 5 then "S"
        else s
      | _, _ => s

/-- Source `calculateFittingResult(virtualFitting, product, size)` from
`src/services/calculateFittingResult.service.js`: guard the two
top-level inputs, compute the pieces, and fall back to the default
result when the body throws (the `try`/`catch`). -/
def calculateFittingResult (virtualFitting : Option VirtualFitting)
    (product : Option Product) (size : Option String) : FittingResult :=
  match virtualFitting with
  | none => getDefaultFittingResult size
  | some vf =>
    match product with
    | none => getDefaultFittingResult size
    | some p =>
      match calculateFitScore vf.bodyMeasurements p.measurements size with
      | .error _ => getDefaultFittingResult size
      | .ok fittingScore =>
        ⟨determineFit fittingScore,
         recommendSize vf.bodyMeasurements p.measurements size,
         fittingScore,
         analyzeFit vf.bodyMeasurements p.measurements size⟩

end FitSvc

namespace CustomSvc

/-- Source `calculateFitScoreForCustomDesign(userMeasurements, designSpecifications)`
from `src/services/calculateFittingResultForCustomDesign.service.js`:
base score 90; when both objects are present subtract
`|Δbust| * 0.3` and `|Δwaist| * 0.5`, absent fields defaulting to `0`
via `|| 0`; clamp into `[0, 100]`. -/
def calculateFitScoreForCustomDesign
    (userMeasurements designSpecifications : Option Meas) : ℚ :=
  let score : ℚ := 90
  let score :=
    match userMeasurements, designSpecifications with
    | some u, some d =>
      let bustDiff := |u.bust.getD 0 - d.bust.getD 0|
      let waistDiff := |u.waist.getD 0 - d.waist.getD 0|
      score - bustDiff * (3/10) - waistDiff * (1/2)
    | _, _ => score
  max 0 (min 100 score)

/-- Modelled from the spec's words, for comparison with the code: the
claimed custom-design score subtracts the bust penalty only when both
sides carry a bust value, and the waist penalty only when both sides
carry a waist value, then clamps into `[0, 100]`. -/
def claimedCustomScore (u d : Meas) : ℚ :=
  let bustPenalty :=
    match u.bust, d.bust with
    | some ub, some db => |ub - db| * (3/10)
    | _, _ => 0
  let waistPenalty :=
    match u.waist, d.waist with
    | some uw, some dw => |uw - dw| * (1/2)
    | _, _ => 0
  max 0 (min 100 (90 - bustPenalty - waistPenalty))

end CustomSvc

/-! ## Helper lemmas -/

theorem jsRound_ge {n : ℤ} {x : ℚ} (h : (n : ℚ) ≤ x) : n ≤ jsRound x := by
  unfold jsRound
  rw [Int.le_floor]
  linarith

theorem jsRound_le {n : ℤ} {x : ℚ} (h : x ≤ (n : ℚ)) : jsRound x ≤ n := by
  unfold jsRound
  have h2 : (⌊x + 1/2⌋ : ℤ) < n + 1 := by
    rw [Int.floor_lt]
    push_cast
    linarith
  omega

theorem optPos_some {x : Option ℚ} {v : ℚ} (hp : optPos x = true) (hx : x = some v) :
    0 < v := by
  subst hx
  simpa [optPos] using hp

theorem meas_valid_fields {m : Meas} (h : m.valid = true) :
    optPos m.shoulders = true ∧ optPos m.bust = true ∧ optPos m.waist = true ∧
      optPos m.hips = true ∧ optPos m.height = true ∧ optPos m.length = true := by
  simpa [Meas.valid, Bool.and_assoc] using h

namespace Engine

theorem isFalsy_false {x : Option ℚ} (h : isFalsy x = false) :
    ∃ v, x = some v ∧ v ≠ 0 := by
  cases x with
  | none => simp [isFalsy] at h
  | some v =>
    refine ⟨v, rfl, ?_⟩
    simpa [isFalsy] using h

/-- A defined per-region score of the catalog path lies in `[50, 100]`
whenever the garment-side value is positive when present. -/
theorem calculateFitScore_bounds {u p : Option ℚ} (hp : optPos p = true) {s : ℤ}
    (h : calculateFitScore u p = some s) : 50 ≤ s ∧ s ≤ 100 := by
  unfold calculateFitScore at h
  by_cases hf : (isFalsy u || isFalsy p) = true
  · simp [hf] at h
  · rw [Bool.or_eq_true, not_or, Bool.not_eq_true, Bool.not_eq_true] at hf
    obtain ⟨hfu, hfp⟩ := hf
    obtain ⟨uv, huv, _⟩ := isFalsy_false hfu
    obtain ⟨pv, hpv, _⟩ := isFalsy_false hfp
    have hppos : 0 < pv := optPos_some hp hpv
    subst huv
    subst hpv
    simp only [hfu, hfp, Bool.or_self, Bool.false_eq_true, if_false,
      Option.getD_some, Option.some.injEq] at h
    subst h
    have hd : 0 ≤ |uv - pv| / pv * 250 := by positivity
    constructor
    · exact jsRound_ge (by push_cast; exact le_max_left _ _)
    · refine jsRound_le ?_
      push_cast
      refine max_le (by norm_num) (by linarith)

/-- When the user side is a nonzero value and the garment side a
positive value, the per-region score is defined. -/
theorem calculateFitScore_some {u p : ℚ} (hu : u ≠ 0) (hp : p ≠ 0) :
    calculateFitScore (some u) (some p) =
      some (jsRound (max 50 (100 - |u - p| / p * 250))) := by
  unfold calculateFitScore
  simp [isFalsy, hu, hp]

/-- Loop invariant of the weighted accumulation: positive weights and
scores in `[50, 100]` keep `50 * totalWeight ≤ overallScore ≤
100 * totalWeight`, and `totalWeight` never decreases. -/
theorem foldl_accumulate_bounds :
    ∀ (L : List (Option ℤ × ℚ)) (a w : ℚ),
      (∀ e ∈ L, 0 < e.2 ∧ ∀ s : ℤ, e.1 = some s → 50 ≤ s ∧ s ≤ 100) →
      50 * w ≤ a → a ≤ 100 * w →
      50 * (L.foldl accumulate (a, w)).2 ≤ (L.foldl accumulate (a, w)).1 ∧
        (L.foldl accumulate (a, w)).1 ≤ 100 * (L.foldl accumulate (a, w)).2 ∧
        w ≤ (L.foldl accumulate (a, w)).2 := by
  intro L
  induction L with
  | nil => intro a w _ h1 h2; exact ⟨h1, h2, le_refl w⟩
  | cons e L ih =>
    intro a w hL h1 h2
    obtain ⟨hw, hs⟩ := hL e (List.mem_cons_self e L)
    have hL' : ∀ e ∈ L, 0 < e.2 ∧ ∀ s : ℤ, e.1 = some s → 50 ≤ s ∧ s ≤ 100 :=
      fun x hx => hL x (List.mem_cons_of_mem e hx)
    cases he : e.1 with
    | none =>
      have hstep : accumulate (a, w) e = (a, w) := by simp [accumulate, he]
      rw [List.foldl_cons, hstep]
      exact ih a w hL' h1 h2
    | some s =>
      obtain ⟨hs1, hs2⟩ := hs s he
      have hstep : accumulate (a, w) e = (a + (s : ℚ) * e.2, w + e.2) := by
        simp [accumulate, he]
      rw [List.foldl_cons, hstep]
      have hs1' : (50 : ℚ) ≤ (s : ℚ) := by exact_mod_cast hs1
      have hs2' : ((s : ℚ)) ≤ 100 := by exact_mod_cast hs2
      have hlow : 50 * (w + e.2) ≤ a + (s : ℚ) * e.2 := by nlinarith
      have hhigh : a + (s : ℚ) * e.2 ≤ 100 * (w + e.2) := by nlinarith
      obtain ⟨c1, c2, c3⟩ := ih _ _ hL' hlow hhigh
      exact ⟨c1, c2, le_trans (by linarith) c3⟩

/-- If every entry's score is `null`, the accumulation loop leaves the
accumulator unchanged. -/
theorem foldl_accumulate_none :
    ∀ (L : List (Option ℤ × ℚ)) (a w : ℚ), (∀ e ∈ L, e.1 = none) →
      L.foldl accumulate (a, w) = (a, w) := by
  intro L
  induction L with
  | nil => intro a w _; rfl
  | cons e L ih =>
    intro a w h
    have he : e.1 = none := h e (List.mem_cons_self e L)
    have hstep : accumulate (a, w) e = (a, w) := by simp [accumulate, he]
    rw [List.foldl_cons, hstep]
    exact ih a w (fun x hx => h x (List.mem_cons_of_mem e hx))

/-- The accumulated `totalWeight` never decreases when all weights are
nonnegative. -/
theorem foldl_accumulate_weight_mono :
    ∀ (L : List (Option ℤ × ℚ)) (a w : ℚ), (∀ e ∈ L, 0 ≤ e.2) →
      w ≤ (L.foldl accumulate (a, w)).2 := by
  intro L
  induction L with
  | nil => intro a w _; exact le_refl _
  | cons e L ih =>
    intro a w hw
    have he : (0:ℚ) ≤ e.2 := hw e (List.mem_cons_self e L)
    have hw' : ∀ x ∈ L, 0 ≤ x.2 := fun x hx => hw x (List.mem_cons_of_mem e hx)
    cases hee : e.1 with
    | none =>
      have hstep : accumulate (a, w) e = (a, w) := by simp [accumulate, hee]
      rw [List.foldl_cons, hstep]
      exact ih a w hw'
    | some s =>
      have hstep : accumulate (a, w) e = (a + (s : ℚ) * e.2, w + e.2) := by
        simp [accumulate, hee]
      rw [List.foldl_cons, hstep]
      exact le_trans (by linarith) (ih _ _ hw')

/-- If some entry's score is defined and all weights are positive, the
final `totalWeight` exceeds the initial one. -/
theorem foldl_accumulate_weight_pos :
    ∀ (L : List (Option ℤ × ℚ)) (a w : ℚ), (∀ e ∈ L, 0 < e.2) →
      (∃ e ∈ L, e.1 ≠ none) → w < (L.foldl accumulate (a, w)).2 := by
  intro L
  induction L with
  | nil => intro a w _ hex; simp at hex
  | cons e L ih =>
    intro a w hw hex
    have hw' : ∀ x ∈ L, 0 < x.2 := fun x hx => hw x (List.mem_cons_of_mem e hx)
    cases hee : e.1 with
    | some s =>
      have hstep : accumulate (a, w) e = (a + (s : ℚ) * e.2, w + e.2) := by
        simp [accumulate, hee]
      rw [List.foldl_cons, hstep]
      have he2 : (0:ℚ) < e.2 := hw e (List.mem_cons_self e L)
      exact lt_of_lt_of_le (by linarith)
        (foldl_accumulate_weight_mono L _ _ (fun x hx => (hw' x hx).le))
    | none =>
      have hstep : accumulate (a, w) e = (a, w) := by simp [accumulate, hee]
      rw [List.foldl_cons, hstep]
      obtain ⟨f, hf, hfe⟩ := hex
      rcases List.mem_cons.mp hf with rfl | hfL
      · exact absurd hee hfe
      · exact ih a w hw' ⟨f, hfL, hfe⟩

theorem optPos_or {x y : Option ℚ} (hx : optPos x = true) (hy : optPos y = true) :
    optPos (x.or y) = true := by
  cases x with
  | none => simpa [Option.or] using hy
  | some v => simpa [Option.or] using hx

/-- Spreading one valid measurement set over another yields a valid
measurement set. -/
theorem mergeMeas_valid {base ov : Meas} (hb : base.valid = true)
    (ho : ov.valid = true) : (mergeMeas base ov).valid = true := by
  obtain ⟨b1, b2, b3, b4, b5, b6⟩ := meas_valid_fields hb
  obtain ⟨o1, o2, o3, o4, o5, o6⟩ := meas_valid_fields ho
  simp only [Meas.valid, mergeMeas, Bool.and_eq_true]
  exact ⟨⟨⟨⟨⟨optPos_or o1 b1, optPos_or o2 b2⟩, optPos_or o3 b3⟩,
    optPos_or o4 b4⟩, optPos_or o5 b5⟩, optPos_or o6 b6⟩

theorem emptyMeas_valid : emptyMeas.valid = true := by decide

/-- A valid product yields valid effective garment measurements for any
selected size. -/
theorem finalProductMeasurements_valid (product : Product) (size : String)
    (hp : product.valid = true) :
    (finalProductMeasurements product size).valid = true := by
  rw [Product.valid, Bool.and_eq_true] at hp
  obtain ⟨hbase, hsizes⟩ := hp
  unfold finalProductMeasurements
  cases hfind : product.sizes.find? (fun s => s.size == size) with
  | none => exact mergeMeas_valid hbase emptyMeas_valid
  | some entry =>
    have hmem : entry ∈ product.sizes := List.mem_of_find?_eq_some hfind
    have hev : (entry.measurements.getD emptyMeas).valid = true := by
      rw [List.all_eq_true] at hsizes
      exact hsizes entry hmem
    exact mergeMeas_valid hbase hev

/-- Every weight in the accumulation list is positive, and every
defined score is in `[50, 100]` when the garment side is valid. -/
theorem weightedEntries_spec (user : Meas) {garment : Meas} (hg : garment.valid = true) :
    ∀ e ∈ weightedEntries (fitScores user garment),
      0 < e.2 ∧ ∀ s : ℤ, e.1 = some s → 50 ≤ s ∧ s ≤ 100 := by
  obtain ⟨g1, g2, g3, g4, g5, g6⟩ := meas_valid_fields hg
  intro e he
  simp only [weightedEntries, fitScores, List.mem_cons, List.not_mem_nil,
    or_false] at he
  rcases he with rfl | rfl | rfl | rfl | rfl
  · exact ⟨by norm_num, fun s hs => calculateFitScore_bounds g1 hs⟩
  · exact ⟨by norm_num, fun s hs => calculateFitScore_bounds g2 hs⟩
  · exact ⟨by norm_num, fun s hs => calculateFitScore_bounds g3 hs⟩
  · exact ⟨by norm_num, fun s hs => calculateFitScore_bounds g4 hs⟩
  · exact ⟨by norm_num, fun s hs => calculateFitScore_bounds g6 hs⟩

/-- The accumulated `totalWeight` is positive exactly when some region
score is defined. -/
theorem anyRegionDefined_iff (fs : FitScores) :
    anyRegionDefined fs = true ↔ ∃ e ∈ weightedEntries fs, e.1 ≠ none := by
  constructor
  · intro h
    rw [anyRegionDefined] at h
    simp only [Bool.or_eq_true, Option.isSome_iff_exists] at h
    simp only [weightedEntries, List.mem_cons, List.not_mem_nil, or_false]
    rcases h with ⟨⟨⟨⟨s, hs⟩ | ⟨s, hs⟩⟩ | ⟨s, hs⟩⟩ | ⟨s, hs⟩⟩ | ⟨s, hs⟩
    · exact ⟨(fs.shoulders, 15/100), by simp [hs]⟩
    · exact ⟨(fs.bust, 25/100), by simp [hs]⟩
    · exact ⟨(fs.waist, 25/100), by simp [hs]⟩
    · exact ⟨(fs.hips, 25/100), by simp [hs]⟩
    · exact ⟨(fs.length, 10/100), by simp [hs]⟩
  · rintro ⟨e, he, hne⟩
    simp only [weightedEntries, List.mem_cons, List.not_mem_nil, or_false] at he
    rw [anyRegionDefined]
    simp only [Bool.or_eq_true, Option.isSome_iff_ne_none]
    rcases he with rfl | rfl | rfl | rfl | rfl
    · exact Or.inl (Or.inl (Or.inl (Or.inl hne)))
    · exact Or.inl (Or.inl (Or.inl (Or.inr hne)))
    · exact Or.inl (Or.inl (Or.inr hne))
    · exact Or.inl (Or.inr hne)
    · exact Or.inr hne

/-- The bound on `finalScore`, for a valid garment side: in `[50, 100]`
when a region is defined, and exactly `85` otherwise. -/
theorem finalScore_spec (user : Meas) {garment : Meas} (hg : garment.valid = true) :
    (anyRegionDefined (fitScores user garment) = true →
      50 ≤ finalScore (fitScores user garment) ∧
        finalScore (fitScores user garment) ≤ 100) ∧
    (anyRegionDefined (fitScores user garment) = false →
      finalScore (fitScores user garment) = 85) := by
  have hspec := weightedEntries_spec user hg
  constructor
  · intro hdef
    obtain ⟨e, he, hne⟩ := (anyRegionDefined_iff _).mp hdef
    have hwpos : (0:ℚ) <
        ((weightedEntries (fitScores user garment)).foldl accumulate (0, 0)).2 :=
      foldl_accumulate_weight_pos _ 0 0 (fun x hx => (hspec x hx).1) ⟨e, he, hne⟩
    obtain ⟨c1, c2, _⟩ := foldl_accumulate_bounds
      (weightedEntries (fitScores user garment)) 0 0 hspec (by norm_num) (by norm_num)
    rw [finalScore]
    simp only [hwpos, if_true, if_pos]
    set t := (weightedEntries (fitScores user garment)).foldl accumulate (0, 0) with ht
    constructor
    · refine jsRound_ge ?_
      rw [le_div_iff hwpos]
      push_cast
      linarith
    · refine jsRound_le ?_
      rw [div_le_iff hwpos]
      push_cast
      linarith
  · intro hdef
    have hall : ∀ e ∈ weightedEntries (fitScores user garment), e.1 = none := by
      intro e he
      by_contra hne
      rw [← Bool.not_eq_true] at hdef
      exact hdef ((anyRegionDefined_iff _).mpr ⟨e, he, hne⟩)
    rw [finalScore, foldl_accumulate_none _ 0 0 hall]
    norm_num

/-- Modelled from the spec's §4 step 3 wording, for comparison with the
code's accumulation loop: sum `regionScore × weight` over the regions
with a defined score, divide by the sum of the weights actually used,
round; default to `85` when no region is defined. -/
def specWeightedScore (fs : FitScores) : ℤ :=
  if anyRegionDefined fs then
    jsRound ((contribution fs.shoulders (15/100) + contribution fs.bust (25/100) +
        contribution fs.waist (25/100) + contribution fs.hips (25/100) +
        contribution fs.length (10/100)) /
      (usedWeight fs.shoulders (15/100) + usedWeight fs.bust (25/100) +
        usedWeight fs.waist (25/100) + usedWeight fs.hips (25/100) +
        usedWeight fs.length (10/100)))
  else 85

/-- The source's fold over the five regions computes exactly the spec's
weighted-average formula. -/
theorem finalScore_eq_spec (fs : FitScores) : finalScore fs = specWeightedScore fs := by
  obtain ⟨a, b, c, d, e⟩ := fs
  rcases a with _ | sa <;> rcases b with _ | sb <;> rcases c with _ | sc <;>
    rcases d with _ | sd <;> rcases e with _ | se <;>
      simp [finalScore, specWeightedScore, weightedEntries, accumulate,
        anyRegionDefined, contribution, usedWeight] <;>
      norm_num

theorem sizeRecommendationFor_spec (n : ℤ) (size : String) (h : size ∈ sizeOptions) :
    sizeRecommendationFor n size ∈ sizeOptions ∧
    (n < 75 → sizeRecommendationFor n size = nextLargerSize size) ∧
    (n > 95 → sizeRecommendationFor n size = nextSmallerSize size) ∧
    (75 ≤ n → n ≤ 95 → sizeRecommendationFor n size = size) := by
  have hmain : (n < 75 → sizeRecommendationFor n size = nextLargerSize size) ∧
      (n > 95 → sizeRecommendationFor n size = nextSmallerSize size) ∧
      (75 ≤ n → n ≤ 95 → sizeRecommendationFor n size = size) := by
    refine ⟨fun hn => ?_, fun hn => ?_, fun ha hb => ?_⟩
    · simp only [sizeRecommendationFor, if_pos hn]
      fin_cases h <;> norm_num [indexOfSize, sizeOptions] <;> decide
    · have hn' : ¬ n < 75 := by omega
      simp only [sizeRecommendationFor, if_neg hn', if_pos hn]
      fin_cases h <;> norm_num [indexOfSize, sizeOptions] <;> decide
    · have h75 : ¬ n < 75 := by omega
      have h95 : ¬ n > 95 := by omega
      simp only [sizeRecommendationFor, if_neg h75, if_neg h95]
  obtain ⟨c1, c2, c3⟩ := hmain
  refine ⟨?_, c1, c2, c3⟩
  rcases lt_or_le n 75 with hn | hn
  · rw [c1 hn]; fin_cases h <;> decide
  · rcases le_or_lt n 95 with hb | hb
    · rw [c3 hn hb]; exact h
    · rw [c2 hb]; fin_cases h <;> decide

theorem sizeRecommendationFor_unknown (n : ℤ) (size : String)
    (h : size ∉ sizeOptions) :
    (n < 75 → sizeRecommendationFor n size = "XS") ∧
    (n > 95 → sizeRecommendationFor n size = size) ∧
    (75 ≤ n → n ≤ 95 → sizeRecommendationFor n size = size) := by
  simp only [sizeOptions, List.mem_cons, List.not_mem_nil, or_false, not_or] at h
  obtain ⟨h1, h2, h3, h4, h5, h6⟩ := h
  have hidx : indexOfSize size = -1 := by
    simp [indexOfSize, beq_iff_eq, Ne.symm h1, Ne.symm h2, Ne.symm h3,
      Ne.symm h4, Ne.symm h5, Ne.symm h6]
  refine ⟨fun hn => ?_, fun hn => ?_, fun ha hb => ?_⟩
  · simp only [sizeRecommendationFor, if_pos hn, hidx]
    norm_num [sizeOptions]
  · have hn' : ¬ n < 75 := by omega
    simp only [sizeRecommendationFor, if_neg hn', if_pos hn, hidx]
    norm_num
  · have h75 : ¬ n < 75 := by omega
    have h95 : ¬ n > 95 := by omega
    simp only [sizeRecommendationFor, if_neg h75, if_neg h95]

end Engine

/-! ## Concrete example inputs -/

/-- The spec's example user: `{bust: 90, waist: 70}`. -/
def mUserEx : Meas := ⟨none, some 90, some 70, none, none, none⟩

/-- The spec's example garment: `{bust: 90, waist: 70}`. -/
def mGarmentEx : Meas := ⟨none, some 90, some 70, none, none, none⟩

/-- A body model carrying the example user measurements. -/
def tbmEx : Engine.TemporaryBodyModel := ⟨mUserEx⟩

/-- A product carrying the example garment measurements and no
size-specific overrides. -/
def productEx : Engine.Product := ⟨some mGarmentEx, []⟩

/-! ## Claims -/

/-- C1: on the catalog path, whenever at least one of the five tracked
regions has both a user and a garment measurement present, the returned
`fitScore` lies in `[50, 100]`; with no region defined it is exactly
`85` (also inside that range).  Inputs are valid in the spec's sense:
every present measurement is positive. -/
theorem catalog_fitScore_bounds (tbm : Engine.TemporaryBodyModel)
    (product : Engine.Product) (size : String)
    (hu : tbm.modelData.valid = true) (hp : product.valid = true) :
    (Engine.anyRegionDefined
        (Engine.fitScores tbm.modelData
          (Engine.finalProductMeasurements product size)) = true →
      50 ≤ (Engine.calculateFittingResult tbm product size).fitScore ∧
        (Engine.calculateFittingResult tbm product size).fitScore ≤ 100) ∧
    (Engine.anyRegionDefined
        (Engine.fitScores tbm.modelData
          (Engine.finalProductMeasurements product size)) = false →
      (Engine.calculateFittingResult tbm product size).fitScore = 85) := by
  have hg := Engine.finalProductMeasurements_valid product size hp
  exact Engine.finalScore_spec tbm.modelData hg

theorem catalog_fitScore_bounds_witness :
    (Meas.valid tbmEx.modelData = true ∧ Engine.Product.valid productEx = true) ∧
    ((Engine.anyRegionDefined
        (Engine.fitScores tbmEx.modelData
          (Engine.finalProductMeasurements productEx "M")) = true →
      50 ≤ (Engine.calculateFittingResult tbmEx productEx "M").fitScore ∧
        (Engine.calculateFittingResult tbmEx productEx "M").fitScore ≤ 100) ∧
    (Engine.anyRegionDefined
        (Engine.fitScores tbmEx.modelData
          (Engine.finalProductMeasurements productEx "M")) = false →
      (Engine.calculateFittingResult tbmEx productEx "M").fitScore = 85)) :=
  ⟨⟨by decide, by decide⟩,
   catalog_fitScore_bounds tbmEx productEx "M" (by decide) (by decide)⟩

/-- C2: for a region where both sides are present (nonzero), the
per-region score is `round(max(50, 100 − (|user − garment| / garment) ×
250))`; with either side absent the score is `null`. -/
theorem regionScore_formula (u g : ℚ) (hu : u ≠ 0) (hg : g ≠ 0) :
    Engine.calculateFitScore (some u) (some g) =
        some (jsRound (max 50 (100 - |u - g| / g * 250))) ∧
      Engine.calculateFitScore (some u) none = none ∧
      Engine.calculateFitScore none (some g) = none ∧
      Engine.calculateFitScore none none = none := by
  refine ⟨Engine.calculateFitScore_some hu hg, ?_, ?_, ?_⟩ <;>
    simp [Engine.calculateFitScore, isFalsy]

theorem regionScore_formula_witness :
    ((90 : ℚ) ≠ 0 ∧ (70 : ℚ) ≠ 0) ∧
    (Engine.calculateFitScore (some 90) (some 70) =
        some (jsRound (max 50 (100 - |(90 : ℚ) - 70| / 70 * 250))) ∧
      Engine.calculateFitScore (some 90) none = none ∧
      Engine.calculateFitScore none (some 70) = none ∧
      Engine.calculateFitScore none none = none) :=
  ⟨⟨by norm_num, by norm_num⟩,
   regionScore_formula 90 70 (by norm_num) (by norm_num)⟩

/-- C8: with a fixed positive garment measurement, the per-region score
is a non-increasing function of the absolute measurement difference:
a larger `|user − garment|` never yields a larger score. -/
theorem regionScore_monotone (g u1 u2 : ℚ) (hg : 0 < g)
    (h1 : u1 ≠ 0) (h2 : u2 ≠ 0) (hd : |u1 - g| ≤ |u2 - g|) (s1 s2 : ℤ)
    (e1 : Engine.calculateFitScore (some u1) (some g) = some s1)
    (e2 : Engine.calculateFitScore (some u2) (some g) = some s2) :
    s2 ≤ s1 := by
  rw [Engine.calculateFitScore_some h1 hg.ne', Option.some.injEq] at e1
  rw [Engine.calculateFitScore_some h2 hg.ne', Option.some.injEq] at e2
  subst e1
  subst e2
  have hdiv : |u1 - g| / g * 250 ≤ |u2 - g| / g * 250 := by gcongr
  have hmax : max 50 (100 - |u2 - g| / g * 250) ≤
      max 50 (100 - |u1 - g| / g * 250) :=
    max_le_max (le_refl _) (by linarith)
  unfold jsRound
  exact Int.floor_le_floor (by linarith)

theorem regionScore_monotone_witness :
    ((0 : ℚ) < 90 ∧ (90 : ℚ) ≠ 0 ∧ (100 : ℚ) ≠ 0 ∧
      |(90 : ℚ) - 90| ≤ |(100 : ℚ) - 90| ∧
      Engine.calculateFitScore (some 90) (some 90) = some 100 ∧
      Engine.calculateFitScore (some 100) (some 90) = some 72) ∧
    (72 : ℤ) ≤ 100 :=
  ⟨⟨by norm_num, by norm_num, by norm_num, by norm_num,
    by norm_num [Engine.calculateFitScore, isFalsy, jsRound],
    by norm_num [Engine.calculateFitScore, isFalsy, jsRound]⟩,
   regionScore_monotone 90 90 100 (by norm_num) (by norm_num) (by norm_num)
     (by norm_num) 100 72
     (by norm_num [Engine.calculateFitScore, isFalsy, jsRound])
     (by norm_num [Engine.calculateFitScore, isFalsy, jsRound])⟩

/-- C3: the overall `fitScore` is the weighted sum of the defined
region scores (weights 0.15/0.25/0.25/0.25/0.10) divided by the sum of
the weights of the defined regions — not by 1.0 — rounded to the
nearest integer, and defaults to `85` when no region is defined. -/
theorem weighted_overall_score (tbm : Engine.TemporaryBodyModel)
    (product : Engine.Product) (size : String) :
    (Engine.calculateFittingResult tbm product size).fitScore =
      Engine.specWeightedScore
        (Engine.fitScores tbm.modelData
          (Engine.finalProductMeasurements product size)) :=
  Engine.finalScore_eq_spec _

/-- C4: for a selected size drawn from the ordered enumeration, a
`fitScore` below 75 recommends the next larger size, above 95 the next
smaller size, otherwise the selected size; the recommendation never
leaves the enumeration. -/
theorem size_recommendation_rule (tbm : Engine.TemporaryBodyModel)
    (product : Engine.Product) (size : String) (h : size ∈ Engine.sizeOptions) :
    (Engine.calculateFittingResult tbm product size).sizeRecommendation ∈
        Engine.sizeOptions ∧
      ((Engine.calculateFittingResult tbm product size).fitScore < 75 →
        (Engine.calculateFittingResult tbm product size).sizeRecommendation =
          Engine.nextLargerSize size) ∧
      ((Engine.calculateFittingResult tbm product size).fitScore > 95 →
        (Engine.calculateFittingResult tbm product size).sizeRecommendation =
          Engine.nextSmallerSize size) ∧
      (75 ≤ (Engine.calculateFittingResult tbm product size).fitScore →
        (Engine.calculateFittingResult tbm product size).fitScore ≤ 95 →
        (Engine.calculateFittingResult tbm product size).sizeRecommendation = size) :=
  Engine.sizeRecommendationFor_spec _ size h

theorem size_recommendation_rule_witness :
    "M" ∈ Engine.sizeOptions ∧
    ((Engine.calculateFittingResult tbmEx productEx "M").sizeRecommendation ∈
        Engine.sizeOptions ∧
      ((Engine.calculateFittingResult tbmEx productEx "M").fitScore < 75 →
        (Engine.calculateFittingResult tbmEx productEx "M").sizeRecommendation =
          Engine.nextLargerSize "M") ∧
      ((Engine.calculateFittingResult tbmEx productEx "M").fitScore > 95 →
        (Engine.calculateFittingResult tbmEx productEx "M").sizeRecommendation =
          Engine.nextSmallerSize "M") ∧
      (75 ≤ (Engine.calculateFittingResult tbmEx productEx "M").fitScore →
        (Engine.calculateFittingResult tbmEx productEx "M").fitScore ≤ 95 →
        (Engine.calculateFittingResult tbmEx productEx "M").sizeRecommendation =
          "M")) :=
  ⟨by decide, size_recommendation_rule tbmEx productEx "M" (by decide)⟩

/-- C10: for a selected-size token outside the enumeration, a
`fitScore` below 75 recommends `"XS"` (the `indexOf` lookup yields `-1`
and stepping up indexes the first element), above 95 the unknown token
is returned unchanged, and in the intermediate range it is returned
unchanged. -/
theorem unknown_size_token (tbm : Engine.TemporaryBodyModel)
    (product : Engine.Product) (size : String)
    (h : size ∉ Engine.sizeOptions) :
    ((Engine.calculateFittingResult tbm product size).fitScore < 75 →
      (Engine.calculateFittingResult tbm product size).sizeRecommendation = "XS") ∧
    ((Engine.calculateFittingResult tbm product size).fitScore > 95 →
      (Engine.calculateFittingResult tbm product size).sizeRecommendation = size) ∧
    (75 ≤ (Engine.calculateFittingResult tbm product size).fitScore →
      (Engine.calculateFittingResult tbm product size).fitScore ≤ 95 →
      (Engine.calculateFittingResult tbm product size).sizeRecommendation = size) :=
  Engine.sizeRecommendationFor_unknown _ size h

theorem unknown_size_token_witness :
    "m" ∉ Engine.sizeOptions ∧
    (((Engine.calculateFittingResult tbmEx productEx "m").fitScore < 75 →
      (Engine.calculateFittingResult tbmEx productEx "m").sizeRecommendation =
        "XS") ∧
    ((Engine.calculateFittingResult tbmEx productEx "m").fitScore > 95 →
      (Engine.calculateFittingResult tbmEx productEx "m").sizeRecommendation =
        "m") ∧
    (75 ≤ (Engine.calculateFittingResult tbmEx productEx "m").fitScore →
      (Engine.calculateFittingResult tbmEx productEx "m").fitScore ≤ 95 →
      (Engine.calculateFittingResult tbmEx productEx "m").sizeRecommendation =
        "m")) :=
  ⟨by decide, unknown_size_token tbmEx productEx "m" (by decide)⟩

/-- C9: a zero or absent garment-side measurement makes the per-region
computation return `null`; the relative-difference division is never
reached with a zero divisor. -/
theorem division_by_zero_guard (u : Option ℚ) :
    Engine.calculateFitScore u (some 0) = none ∧
      Engine.calculateFitScore u none = none := by
  constructor <;> simp [Engine.calculateFitScore, isFalsy]

/-- On the spec's example input the per-region scores are `100` for
bust and waist and undefined elsewhere. -/
theorem exampleFitScores_eq :
    Engine.fitScores tbmEx.modelData
        (Engine.finalProductMeasurements productEx "M") =
      ⟨none, some 100, some 100, none, none⟩ := by
  norm_num [Engine.fitScores, Engine.finalProductMeasurements, Engine.mergeMeas,
    Engine.calculateFitScore, isFalsy, jsRound, tbmEx, productEx, mUserEx,
    mGarmentEx, emptyMeas, Option.or]

/-- On the spec's example input the weighted overall score is `100`. -/
theorem exampleFinalScore_eq :
    Engine.finalScore
        (Engine.fitScores tbmEx.modelData
          (Engine.finalProductMeasurements productEx "M")) = 100 := by
  rw [exampleFitScores_eq]
  norm_num [Engine.finalScore, Engine.weightedEntries, Engine.accumulate, jsRound]

/-- C7: on the spec's example (`user = {bust: 90, waist: 70}`, garment
base `{bust: 90, waist: 70}`, selected size `"M"`), the overall
`fitScore` is `100` — but the size recommendation is not `"M"` as
claimed: a score above 95 steps down one size. -/
theorem perfect_match_counterexample :
    (Engine.calculateFittingResult tbmEx productEx "M").fitScore = 100 ∧
    (Engine.calculateFittingResult tbmEx productEx "M").sizeRecommendation ≠ "M" := by
  refine ⟨exampleFinalScore_eq, ?_⟩
  show Engine.sizeRecommendationFor
    (Engine.finalScore
      (Engine.fitScores tbmEx.modelData
        (Engine.finalProductMeasurements productEx "M"))) "M" ≠ "M"
  rw [exampleFinalScore_eq]
  decide

/-- C7 (amended): an exactly matching region scores `100`; on the
spec's example the defined per-region scores are all `100`, the overall
`fitScore` is `100`, the verdict is `"perfect"`, and the size
recommendation is `"S"` — one size below the selected `"M"`, because
`fitScore 100 > 95` triggers the smaller-size rule. -/
theorem perfect_match_amended :
    (∀ u : ℚ, u ≠ 0 → Engine.calculateFitScore (some u) (some u) = some 100) ∧
    Engine.fitScores tbmEx.modelData
        (Engine.finalProductMeasurements productEx "M") =
      ⟨none, some 100, some 100, none, none⟩ ∧
    (Engine.calculateFittingResult tbmEx productEx "M").fitScore = 100 ∧
    (Engine.calculateFittingResult tbmEx productEx "M").fit = "perfect" ∧
    (Engine.calculateFittingResult tbmEx productEx "M").sizeRecommendation = "S" := by
  refine ⟨?_, exampleFitScores_eq, exampleFinalScore_eq, ?_, ?_⟩
  · intro u hu
    rw [Engine.calculateFitScore_some hu hu]
    norm_num [jsRound]
  · show Engine.fitCategory
      (Engine.finalScore
        (Engine.fitScores tbmEx.modelData
          (Engine.finalProductMeasurements productEx "M"))) = "perfect"
    rw [exampleFinalScore_eq]
    decide
  · show Engine.sizeRecommendationFor
      (Engine.finalScore
        (Engine.fitScores tbmEx.modelData
          (Engine.finalProductMeasurements productEx "M"))) "M" = "S"
    rw [exampleFinalScore_eq]
    decide

theorem perfect_match_amended_witness :
    (90 : ℚ) ≠ 0 ∧ Engine.calculateFitScore (some (90 : ℚ)) (some 90) = some 100 :=
  ⟨by norm_num, perfect_match_amended.1 90 (by norm_num)⟩

/-- C5: when the virtual-fitting profile or the product record is
entirely absent, the catalog service entry point returns exactly the
documented default result — fit `"Standard"`, size recommendation the
selected size (or `"M"` when none was given), `fitScore` 75, and all
five region descriptors `"Standard fit"` — rather than throwing. -/
theorem absent_input_default (virtualFitting : Option FitSvc.VirtualFitting)
    (product : Option FitSvc.Product) (size : Option String)
    (habs : virtualFitting = none ∨ product = none) (hsz : size ≠ some "") :
    FitSvc.calculateFittingResult virtualFitting product size =
      ⟨"Standard", size.getD "M", 75,
       ⟨"Standard fit", "Standard fit", "Standard fit", "Standard fit",
        "Standard fit"⟩⟩ := by
  have hdef : FitSvc.getDefaultFittingResult size =
      ⟨"Standard", size.getD "M", 75,
       ⟨"Standard fit", "Standard fit", "Standard fit", "Standard fit",
        "Standard fit"⟩⟩ := by
    cases size with
    | none => rfl
    | some s =>
      have hs : s ≠ "" := fun h => hsz (by rw [h])
      simp [FitSvc.getDefaultFittingResult, hs]
  rcases habs with rfl | rfl
  · exact hdef
  · cases virtualFitting with
    | none => exact hdef
    | some vf => exact hdef

theorem absent_input_default_witness :
    (((none : Option FitSvc.VirtualFitting) = none ∨
        (none : Option FitSvc.Product) = none) ∧
      (some "L" : Option String) ≠ some "") ∧
    FitSvc.calculateFittingResult none none (some "L") =
      ⟨"Standard", (some "L" : Option String).getD "M", 75,
       ⟨"Standard fit", "Standard fit", "Standard fit", "Standard fit",
        "Standard fit"⟩⟩ :=
  ⟨⟨Or.inl rfl, by decide⟩,
   absent_input_default none none (some "L") (Or.inl rfl) (by decide)⟩

/-- The user side of the custom-design counterexample: a bust value
with no waist value. -/
def uC6 : Meas := ⟨none, some 90, none, none, none, none⟩

/-- C6 (counterexample): with the user carrying `bust = 90` and the
design specification carrying no bust value at all, the code still
subtracts the full `|90 − 0| × 0.3` penalty (the `|| 0` default),
returning `63`, while the claimed formula — penalty only when both
sides have the value — yields `90`. -/
theorem custom_score_counterexample :
    CustomSvc.calculateFitScoreForCustomDesign (some uC6) (some emptyMeas) ≠
      CustomSvc.claimedCustomScore uC6 emptyMeas := by
  have h1 : CustomSvc.calculateFitScoreForCustomDesign (some uC6) (some emptyMeas) =
      63 := by
    unfold CustomSvc.calculateFitScoreForCustomDesign
    norm_num [uC6, emptyMeas]
  have h2 : CustomSvc.claimedCustomScore uC6 emptyMeas = 90 := by
    unfold CustomSvc.claimedCustomScore
    norm_num [uC6, emptyMeas]
  rw [h1, h2]
  norm_num

/-- C6 (amended): with both mappings present, the custom-path score is
the clamp into `[0, 100]` of `90 − |Δbust| × 0.3 − |Δwaist| × 0.5`,
where an absent bust or waist value on either side defaults to `0` (so
a one-sided value is penalized by its full magnitude); no other region
changes the score, and the result always lies in `[0, 100]`. -/
theorem custom_score_amended (u d : Meas) :
    CustomSvc.calculateFitScoreForCustomDesign (some u) (some d) =
        max 0 (min 100 (90 - |u.bust.getD 0 - d.bust.getD 0| * (3/10) -
          |u.waist.getD 0 - d.waist.getD 0| * (1/2))) ∧
      0 ≤ CustomSvc.calculateFitScoreForCustomDesign (some u) (some d) ∧
      CustomSvc.calculateFitScoreForCustomDesign (some u) (some d) ≤ 100 := by
  refine ⟨rfl, le_max_left 0 _, ?_⟩
  exact max_le (by norm_num) (min_le_left 100 _)
